import Mathlib

/-!
# Order & Payment Ledger — verification of the MERNSTACKVER4 backend

Shallow embedding of the order payment/settlement logic of the repository:
the checkout payment-plan calculator (`frontend/src/CheckoutPage.jsx`),
and the backend handlers for order creation (`POST /api/orders`),
settlement (`POST /api/orders/:id/complete-payment`), the payment webhook
(`POST /api/paymongo-webhook`), cancellation (`PUT /api/orders/:id/cancel`)
and refund requests (`PUT /api/orders/:id/request-refund`).

Money amounts are modelled as exact rationals (`Rat`); JavaScript
`Math.round` is modelled as `⌊x + 1/2⌋`.  Mongo documents are modelled as
Lean structures holding only the fields the ledger logic reads or writes;
pass-through fields (addresses, phone numbers, delivery proofs, log lines)
are omitted.  Each handler is a pure function from a database state (plus
the request) to a new database state and a response.
-/

namespace Ledger

/-- JavaScript `Math.round` on an exact rational: round half away from zero
for positive halves, i.e. `⌊x + 1/2⌋` (this is what JS does on reals). -/
def jsRound (x : Rat) : Int :=
  Int.floor (x + 1/2)

/-! ## Catalog items

`Item` carries the fields of `item.model` that the ledger reads:
`price`, `is_customizable` and the `sales` counter. -/

structure Item where
  itemId : Nat
  price : Rat
  is_customizable : Bool
  sales : Nat
deriving Repr, DecidableEq

/-- `Item.find({_id: {$in: ids}})` restricted to one id: first catalog entry
with the given id. -/
def findItem (catalog : List Item) (id : Nat) : Option Item :=
  catalog.find? (fun it => it.itemId = id)

/-! ## Orders

`OrderLine` is one entry of `Order.items` in `order.model.js`: a reference
to the catalog item, quantity, the charged price, and the Mongo subdocument
`_id` (fresh per order, assigned at `order.save()`). Custom-dimension and
material fields are carried but never read by the ledger handlers. -/

structure OrderLine where
  lineId : Nat
  item : Nat
  quantity : Nat
  price : Rat
  customH : Option Rat := none
  customW : Option Rat := none
  customL : Option Rat := none
  legsFrameMaterial : Option String := none
  tabletopMaterial : Option String := none
deriving Repr, DecidableEq

/-- The ledger-relevant fields of an `Order` document (`order.model.js`);
`paymentStatus` and `status` are kept as strings exactly as the handlers
write them. -/
structure Order where
  orderId : Nat
  user : Nat
  items : List OrderLine
  amount : Rat
  totalWithShipping : Rat
  downPayment : Rat
  balance : Rat
  paymentStatus : String
  status : String
  transactionHash : String
  transactionId : Option String
  deliveryOption : String
  shippingFee : Rat
deriving Repr, DecidableEq

/-! ## Carts

A cart line (`cart.model.js` is referenced but not vendored here; shape
taken from the cart endpoints in the backend: subdocuments pushed as
`{item, quantity, ...}`, each receiving its own Mongo `_id`). -/

structure CartLine where
  lineId : Nat
  item : Nat
  quantity : Nat
deriving Repr, DecidableEq

structure Cart where
  user : Nat
  items : List CartLine
deriving Repr, DecidableEq

/-- The database: users (only existence matters to the handlers), the item
catalog, order documents, carts, and the id allocators standing in for
Mongo ObjectId generation (orders and order-line subdocuments get fresh
ids on `order.save()`). -/
structure DB where
  users : List Nat
  catalog : List Item
  orders : List Order
  carts : List Cart
  nextOrderId : Nat
  nextLineId : Nat
deriving Repr, DecidableEq

/-- `Order.findById` -/
def findOrder (db : DB) (id : Nat) : Option Order :=
  db.orders.find? (fun o => o.orderId = id)

/-- `Order.findOne({transactionHash: h})` -/
def findOrderByHash (db : DB) (h : String) : Option Order :=
  db.orders.find? (fun o => o.transactionHash = h)

/-- `Order.findOne({transactionId: sid})` -/
def findOrderByTransactionId (db : DB) (sid : String) : Option Order :=
  db.orders.find? (fun o => o.transactionId = some sid)

/-- Write back one order document (keyed by `_id`). -/
def putOrder (db : DB) (o : Order) : DB :=
  { db with orders := db.orders.map (fun x => if x.orderId = o.orderId then o else x) }

/-! ## Frontend payment-plan calculator (`CheckoutPage.jsx`)

`calculatePaymentAmounts` iterates the selected cart entries, accumulating
`customizedTotal` and `normalTotal` from `entry.item.price * entry.quantity`
according to `entry.item?.is_customizable || false`, then computes the down
payment, remaining balance and full amount. -/

structure CartEntry where
  price : Rat
  quantity : Nat
  is_customizable : Bool
deriving Repr, DecidableEq

structure PaymentPlan where
  customizedTotal : Rat
  normalTotal : Rat
  downPaymentAmount : Rat
  remainingBalance : Rat
  fullAmount : Rat
deriving Repr, DecidableEq

/-- The `forEach` accumulation of `customizedTotal` and `normalTotal`. -/
def splitTotals : List CartEntry → Rat × Rat
  | [] => (0, 0)
  | e :: rest =>
      let (c, n) := splitTotals rest
      let itemTotal := e.price * (e.quantity : Rat)
      if e.is_customizable then (c + itemTotal, n) else (c, n + itemTotal)

/-- `calculatePaymentAmounts` of `CheckoutPage.jsx`:
down payment = 30% of the customized subtotal plus the whole normal
subtotal, remaining balance = 70% of the customized subtotal. -/
def calculatePaymentAmounts (entries : List CartEntry) : PaymentPlan :=
  let (customizedTotal, normalTotal) := splitTotals entries
  { customizedTotal := customizedTotal
    normalTotal := normalTotal
    downPaymentAmount := customizedTotal * (3/10) + normalTotal
    remainingBalance := customizedTotal * (7/10)
    fullAmount := customizedTotal + normalTotal }

/-- `getActualPaymentAmount` of `CheckoutPage.jsx` in the
`down_payment` branch: 30% of each customized line, 100% of each normal
line. (In the `full_payment` branch it returns the plain total.) -/
def getActualPaymentAmount (entries : List CartEntry) : Rat :=
  entries.foldr
    (fun e acc =>
      let itemTotal := e.price * (e.quantity : Rat)
      acc + (if e.is_customizable then itemTotal * (3/10) else itemTotal)) 0

/-! ## Order creation (`POST /api/orders`) -/

/-- One entry of the request's `items` array (already carrying the price
the frontend resolved). -/
structure ReqLine where
  item : Nat
  quantity : Nat
  price : Rat
  customH : Option Rat := none
  customW : Option Rat := none
  customL : Option Rat := none
  legsFrameMaterial : Option String := none
  tabletopMaterial : Option String := none
deriving Repr, DecidableEq

/-- The order-creation request body. A missing/falsy `transactionHash` is
modelled as the empty string (the JS guard is `if (transactionHash)`);
`paymentType` defaults to `"full_payment"` as in the destructuring
`const { paymentType = "full_payment", paidAmount } = req.body`. -/
structure CreateOrderRequest where
  items : List ReqLine
  amount : Rat
  totalWithShipping : Rat
  transactionHash : String
  deliveryOption : String
  shippingFee : Rat
  paymentType : String := "full_payment"
  paidAmount : Rat
deriving Repr, DecidableEq

inductive CreateResult where
  | duplicate (orderId : Nat)
  | userNotFound
  | created (orderId : Nat)
deriving Repr, DecidableEq

/-- `processedItems = items.map(...)`, with Mongo assigning a fresh
subdocument `_id` to every order line at `order.save()` (modelled by
consecutive ids starting at `startId`). -/
def processLines (startId : Nat) : List ReqLine → List OrderLine
  | [] => []
  | r :: rest =>
      { lineId := startId, item := r.item, quantity := r.quantity, price := r.price,
        customH := r.customH, customW := r.customW, customL := r.customL,
        legsFrameMaterial := r.legsFrameMaterial, tabletopMaterial := r.tabletopMaterial }
        :: processLines (startId + 1) rest

/-- `itemDetails = await Item.find({_id: {$in: itemIds}})` followed by
`itemDetails.some(item => item.is_customizable)`. -/
def hasCustomizableItems (catalog : List Item) (itemIds : List Nat) : Bool :=
  (catalog.filter (fun it => itemIds.contains it.itemId)).any (·.is_customizable)

/-- The `(downPayment, balance, paymentStatus, initialStatus)` computed by
the "DOWN PAYMENT SYSTEM LOGIC" block of the order-creation handler. -/
def paymentFields (hasCustom : Bool) (paymentType deliveryOption : String)
    (amount paidAmount : Rat) : Rat × Rat × String × String :=
  let fullStatus : String :=
    if deliveryOption = "pickup" then "Ready for Pickup" else "On Process"
  if hasCustom then
    if paymentType = "full_payment" then
      (amount, 0, "Fully Paid", fullStatus)
    else
      (paidAmount, amount - paidAmount, "Downpayment Received", "On Process")
  else
    (amount, 0, "Fully Paid", fullStatus)

/-- The `orderData` document built and saved by the creation handler
(`new Order(orderData); await order.save()`). -/
def newOrderDoc (db : DB) (userId : Nat) (req : CreateOrderRequest) : Order :=
  let items := processLines db.nextLineId req.items
  let hasCustom := hasCustomizableItems db.catalog (items.map (·.item))
  let pf := paymentFields hasCustom req.paymentType req.deliveryOption
    req.amount req.paidAmount
  { orderId := db.nextOrderId
    user := userId
    items := items
    amount := req.amount
    totalWithShipping := req.totalWithShipping
    downPayment := pf.1
    balance := pf.2.1
    paymentStatus := pf.2.2.1
    status := pf.2.2.2
    transactionHash := req.transactionHash
    transactionId := none
    deliveryOption := req.deliveryOption
    shippingFee := req.shippingFee }

/-- The `POST /api/orders` handler: duplicate check on `transactionHash`
(skipped when falsy), user lookup, item processing, the down-payment
branch, and `order.save()`. Address/phone processing and logging are
pass-throughs and are not modelled. -/
def createOrder (db : DB) (userId : Nat) (req : CreateOrderRequest) : DB × CreateResult :=
  let dup := if req.transactionHash ≠ "" then findOrderByHash db req.transactionHash else none
  match dup with
  | some existing => (db, .duplicate existing.orderId)
  | none =>
    if ¬ db.users.contains userId then (db, .userNotFound)
    else
      let order := newOrderDoc db userId req
      ({ db with
          orders := db.orders ++ [order]
          nextOrderId := db.nextOrderId + 1
          nextLineId := db.nextLineId + order.items.length },
        .created order.orderId)

/-! ## Settlement (`POST /api/orders/:id/complete-payment`) -/

/-- Outcome of the axios call creating a PayMongo checkout session:
either the call throws (network error or 4xx) or it returns a session
whose id is `data.data.id`. The customer has NOT paid at this point —
the session is merely created. -/
inductive GatewayOutcome where
  | failure
  | session (sid : String)
deriving Repr, DecidableEq

inductive CompleteResult where
  | notFound
  | unauthorized
  | noBalance
  | gatewayError
  | ok (sessionId : String)
deriving Repr, DecidableEq

/-- The `POST /api/orders/:id/complete-payment` handler. The handler also
computes a `customizedTotal` from the populated items, but never uses it;
the amount sent to the gateway is `Math.round(order.balance * 100)`
centavos. On session creation success it immediately stores the session id
as the new `transactionHash` and marks the order fully paid. -/
def completePayment (db : DB) (orderId userId : Nat) (gw : GatewayOutcome) :
    DB × CompleteResult :=
  match findOrder db orderId with
  | none => (db, .notFound)
  | some order =>
    if order.user ≠ userId then (db, .unauthorized)
    else
      let amountToPay := jsRound (order.balance * 100)
      if amountToPay ≤ 0 then (db, .noBalance)
      else
        match gw with
        | .failure => (db, .gatewayError)
        | .session sid =>
          let order' :=
            { order with
                transactionHash := sid
                paymentStatus := "Fully Paid"
                balance := 0
                downPayment := order.totalWithShipping }
          (putOrder db order', .ok sid)

/-! ## Payment webhook (`POST /api/paymongo-webhook`) -/

/-- Update the first list element satisfying `p` (Mongo
`findOneAndUpdate`). -/
def updateFirst (p : α → Bool) (f : α → α) : List α → List α
  | [] => []
  | x :: xs => if p x then f x :: xs else x :: updateFirst p f xs

/-- `Item.findByIdAndUpdate(id, {$inc: {sales: delta}})`. -/
def incSales (catalog : List Item) (itemId : Nat) (delta : Nat) : List Item :=
  catalog.map (fun it => if it.itemId = itemId then { it with sales := it.sales + delta } else it)

/-- The `checkout_session.completed` branch of the webhook handler: find
the order by `transactionId == sessionId`; if found, set
`status = "On Process"`, pull from the owner's cart every cart line whose
subdocument `_id` is among `order.items.map(item => item._id)` (the
ORDER-line subdocument ids), and increment each purchased catalog item's
`sales` by the purchased quantity. Any other event type is a no-op. -/
def processWebhook (db : DB) (eventType : String) (sessionId : String) : DB :=
  if eventType = "checkout_session.completed" then
    match findOrderByTransactionId db sessionId with
    | none => db
    | some order =>
      let db1 := putOrder db { order with status := "On Process" }
      let lineIds := order.items.map (·.lineId)
      let carts' := updateFirst (fun c => c.user = order.user)
        (fun c => { c with items := c.items.filter (fun cl => ¬ lineIds.contains cl.lineId) })
        db1.carts
      let catalog' := order.items.foldl (fun cat l => incSales cat l.item l.quantity) db1.catalog
      { db1 with carts := carts', catalog := catalog' }
  else db

/-! ## Cancellation (`PUT /api/orders/:id/cancel`) -/

inductive CancelResult where
  | notFound
  | unauthorized
  | ok
deriving Repr, DecidableEq

/-- The `PUT /api/orders/:id/cancel` handler. The handler runs
`Order.findByIdAndUpdate(id, {status: "cancelled"})` BEFORE the ownership
check, so when the order exists its status is overwritten even for a
caller who does not own it; `findByIdAndUpdate` does not run schema
validators, so the lowercase string `"cancelled"` is stored although the
schema enum only lists `"Cancelled"`. -/
def cancelOrder (db : DB) (orderId callerId : Nat) : DB × CancelResult :=
  match findOrder db orderId with
  | none => (db, .notFound)
  | some order =>
    let db' := putOrder db { order with status := "cancelled" }
    if order.user ≠ callerId then (db', .unauthorized)
    else (db', .ok)

/-! ## Refund requests (`PUT /api/orders/:id/request-refund`) -/

inductive RefundResult where
  | notFound
  | unauthorized
  | invalidState
  | ok
deriving Repr, DecidableEq

/-- `order.items.some(item => item.item?.is_customizable || false)` over
the populated items (a dangling item reference counts as `false`). -/
def orderHasCustomizedItems (catalog : List Item) (o : Order) : Bool :=
  o.items.any (fun l =>
    match findItem catalog l.item with
    | some it => it.is_customizable
    | none => false)

/-- The `PUT /api/orders/:id/request-refund` handler: ownership check,
then the `status == "On Process"` guard, then the no-customized-items
guard (both guard failures answer HTTP 400, the spec's `InvalidState`),
then the mutation to `Requesting for Refund` / `Refund Requested`. -/
def requestRefund (db : DB) (orderId callerId : Nat) : DB × RefundResult :=
  match findOrder db orderId with
  | none => (db, .notFound)
  | some order =>
    if order.user ≠ callerId then (db, .unauthorized)
    else if order.status ≠ "On Process" then (db, .invalidState)
    else if orderHasCustomizedItems db.catalog order then (db, .invalidState)
    else
      (putOrder db
        { order with status := "Requesting for Refund", paymentStatus := "Refund Requested" },
        .ok)

/-! ## Concrete fixtures used by witnesses and counterexamples -/

/-- Scenario B cart of the spec: one customizable item priced 10000 and
one normal item priced 500, one of each. -/
def scenarioBEntries : List CartEntry :=
  [⟨10000, 1, true⟩, ⟨500, 1, false⟩]

/-- Catalog for scenario B: item 1 customizable at 10000, item 2 normal
at 500. -/
def scenarioBDB : DB :=
  { users := [1]
    catalog := [⟨1, 10000, true, 0⟩, ⟨2, 500, false, 0⟩]
    orders := []
    carts := []
    nextOrderId := 1
    nextLineId := 1 }

/-- Scenario B order-creation request: down payment on the mixed cart,
no shipping fee, `paidAmount` computed the way `CheckoutPage.jsx` does
(`grandTotal = getActualPaymentAmount() + shippingFee`). -/
def scenarioBReq : CreateOrderRequest :=
  { items := [{ item := 1, quantity := 1, price := 10000 },
              { item := 2, quantity := 1, price := 500 }]
    amount := 10500
    totalWithShipping := 10500
    transactionHash := "u1-1"
    deliveryOption := "shipping"
    shippingFee := 0
    paymentType := "down_payment"
    paidAmount := getActualPaymentAmount scenarioBEntries + 0 }

/-- A non-customizable one-item cart bought with a 1500 shipping fee
(scenario A of the spec: price 1000, quantity 2, shipping 1500). -/
def shippingDB : DB :=
  { users := [1]
    catalog := [⟨2, 1000, false, 0⟩]
    orders := []
    carts := []
    nextOrderId := 1
    nextLineId := 1 }

/-- The scenario-A creation request: `amount = 2000`,
`totalWithShipping = 3500`, `shippingFee = 1500`. -/
def shippingReq : CreateOrderRequest :=
  { items := [{ item := 2, quantity := 2, price := 1000 }]
    amount := 2000
    totalWithShipping := 3500
    transactionHash := "u1-2"
    deliveryOption := "shipping"
    shippingFee := 1500
    paymentType := "full_payment"
    paidAmount := 3500 }

/-- The scenario-B order after its down payment (`downPayment 3500`,
`balance 7000`), owned by user 1 and awaiting settlement (scenario C of
the spec). -/
def settleOrder : Order :=
  { orderId := 1
    user := 1
    items := [{ lineId := 10, item := 1, quantity := 1, price := 10000 },
              { lineId := 11, item := 2, quantity := 1, price := 500 }]
    amount := 10500
    totalWithShipping := 10500
    downPayment := 3500
    balance := 7000
    paymentStatus := "Downpayment Received"
    status := "On Process"
    transactionHash := "u1-1"
    transactionId := none
    deliveryOption := "shipping"
    shippingFee := 0 }

/-- Database holding `settleOrder`, ready for the complete-payment
flow. -/
def settleDB : DB :=
  { users := [1, 2]
    catalog := [⟨1, 10000, true, 0⟩, ⟨2, 500, false, 0⟩]
    orders := [settleOrder]
    carts := []
    nextOrderId := 2
    nextLineId := 12 }

/-- An order reachable by the webhook (`transactionId = "cs_1"`), holding
one line with subdocument id 100 for catalog item 5. -/
def webhookOrder : Order :=
  { orderId := 1
    user := 1
    items := [{ lineId := 100, item := 5, quantity := 2, price := 800 }]
    amount := 1600
    totalWithShipping := 1600
    downPayment := 1600
    balance := 0
    paymentStatus := "Fully Paid"
    status := "Pending"
    transactionHash := "u1-9"
    transactionId := some "cs_1"
    deliveryOption := "shipping"
    shippingFee := 0 }

/-- Database holding `webhookOrder`; the owner's cart still holds a line
for the same catalog item 5 under its own subdocument id 200. -/
def webhookDB : DB :=
  { users := [1]
    catalog := [⟨5, 800, false, 0⟩]
    orders := [webhookOrder]
    carts := [{ user := 1, items := [{ lineId := 200, item := 5, quantity := 2 }] }]
    nextOrderId := 2
    nextLineId := 101 }

/-- An already-persisted order with an empty `transactionHash`, identical
in contents to what `emptyHashReq` would create. -/
def emptyHashOrder : Order :=
  { orderId := 4
    user := 1
    items := [{ lineId := 6, item := 2, quantity := 2, price := 1000 }]
    amount := 2000
    totalWithShipping := 2000
    downPayment := 2000
    balance := 0
    paymentStatus := "Fully Paid"
    status := "Ready for Pickup"
    transactionHash := ""
    transactionId := none
    deliveryOption := "pickup"
    shippingFee := 0 }

/-- Database already containing `emptyHashOrder`. -/
def emptyHashDB : DB :=
  { users := [1]
    catalog := [⟨2, 1000, false, 0⟩]
    orders := [emptyHashOrder]
    carts := []
    nextOrderId := 5
    nextLineId := 7 }

/-- A creation request with an absent (empty) `transactionHash`, with the
same contents as `emptyHashOrder`. -/
def emptyHashReq : CreateOrderRequest :=
  { items := [{ item := 2, quantity := 2, price := 1000 }]
    amount := 2000
    totalWithShipping := 2000
    transactionHash := ""
    deliveryOption := "pickup"
    shippingFee := 0
    paymentType := "full_payment"
    paidAmount := 2000 }

/-! ## Theorems -/

/-- `processedItems` preserves the referenced catalog item of each line. -/
lemma processLines_map_item (s : Nat) (rs : List ReqLine) :
    (processLines s rs).map (fun l => l.item) = rs.map (fun r => r.item) := by
  induction rs generalizing s with
  | nil => rfl
  | cons r rest ih => simp [processLines, ih]

/-- A catalog entry that is referenced by the order and customizable makes
`hasCustomizableItems` true. -/
lemma hasCustomizableItems_of_mem (catalog : List Item) (ids : List Nat) (it : Item)
    (h1 : it ∈ catalog) (h2 : ids.contains it.itemId = true)
    (h3 : it.is_customizable = true) :
    hasCustomizableItems catalog ids = true := by
  unfold hasCustomizableItems
  rw [List.any_eq_true]
  exact ⟨it, List.mem_filter.2 ⟨h1, h2⟩, h3⟩

/-- The customized subtotal accumulated by `calculatePaymentAmounts` is the
sum of `price × quantity` over the customizable lines. -/
lemma splitTotals_fst (es : List CartEntry) :
    (splitTotals es).1 =
      ((es.filter (fun e => e.is_customizable)).map
        (fun e => e.price * (e.quantity : Rat))).sum := by
  induction es with
  | nil => simp [splitTotals]
  | cons e rest ih =>
    by_cases h : e.is_customizable = true <;>
      simp [splitTotals, h, ih, add_comm]

/-- The normal subtotal accumulated by `calculatePaymentAmounts` is the
sum of `price × quantity` over the non-customizable lines. -/
lemma splitTotals_snd (es : List CartEntry) :
    (splitTotals es).2 =
      ((es.filter (fun e => ¬ e.is_customizable)).map
        (fun e => e.price * (e.quantity : Rat))).sum := by
  induction es with
  | nil => simp [splitTotals]
  | cons e rest ih =>
    by_cases h : e.is_customizable = true <;>
      simp [splitTotals, h, ih, add_comm]

/-- C5: for every cart, partitioning lines by `item.is_customizable`, the
payment plan satisfies `downPaymentAmount == customizedTotal × 0.30 +
normalTotal`, `remainingBalance == customizedTotal × 0.70` and
`fullAmount == customizedTotal + normalTotal`; hence
`downPaymentAmount + remainingBalance == fullAmount` for every cart, and
for a cart with zero customized lines `downPaymentAmount == fullAmount`
and `remainingBalance == 0`. -/
theorem calculatePaymentAmounts_spec (entries : List CartEntry) :
    (calculatePaymentAmounts entries).customizedTotal =
      ((entries.filter (fun e => e.is_customizable)).map
        (fun e => e.price * (e.quantity : Rat))).sum ∧
    (calculatePaymentAmounts entries).normalTotal =
      ((entries.filter (fun e => ¬ e.is_customizable)).map
        (fun e => e.price * (e.quantity : Rat))).sum ∧
    (calculatePaymentAmounts entries).downPaymentAmount =
      (calculatePaymentAmounts entries).customizedTotal * (3/10) +
        (calculatePaymentAmounts entries).normalTotal ∧
    (calculatePaymentAmounts entries).remainingBalance =
      (calculatePaymentAmounts entries).customizedTotal * (7/10) ∧
    (calculatePaymentAmounts entries).fullAmount =
      (calculatePaymentAmounts entries).customizedTotal +
        (calculatePaymentAmounts entries).normalTotal ∧
    (calculatePaymentAmounts entries).downPaymentAmount +
        (calculatePaymentAmounts entries).remainingBalance =
      (calculatePaymentAmounts entries).fullAmount ∧
    ((∀ e ∈ entries, e.is_customizable = false) →
      (calculatePaymentAmounts entries).downPaymentAmount =
          (calculatePaymentAmounts entries).fullAmount ∧
        (calculatePaymentAmounts entries).remainingBalance = 0) := by
  have hc := splitTotals_fst entries
  have hn := splitTotals_snd entries
  refine ⟨hc, hn, rfl, rfl, rfl, by simp [calculatePaymentAmounts]; ring, ?_⟩
  intro hall
  have hfilter : entries.filter (fun e => e.is_customizable) = [] := by
    rw [List.filter_eq_nil_iff]
    intro e he
    simp [hall e he]
  have hzero : (splitTotals entries).1 = 0 := by
    rw [hc, hfilter]; simp
  constructor
  · simp [calculatePaymentAmounts, hzero]
  · simp [calculatePaymentAmounts, hzero]

/-- Witness for C5: a one-line all-normal cart (price 500, quantity 2)
instantiates the specification; its down payment equals its full amount. -/
theorem calculatePaymentAmounts_spec_witness :
    ((calculatePaymentAmounts [⟨500, 2, false⟩]).downPaymentAmount =
        (calculatePaymentAmounts [⟨500, 2, false⟩]).fullAmount ∧
      (calculatePaymentAmounts [⟨500, 2, false⟩]).remainingBalance = 0) ∧
    (calculatePaymentAmounts [⟨500, 2, false⟩]).fullAmount = 1000 :=
  ⟨(calculatePaymentAmounts_spec [⟨500, 2, false⟩]).2.2.2.2.2.2
      (by intro e he; simp at he; simp [he]),
    by norm_num [calculatePaymentAmounts, splitTotals]⟩

/-- C2: when the duplicate check and user lookup pass, the cart references
at least one customizable catalog item, and `paymentType` is
`"down_payment"`, the created order has `downPayment == paidAmount`,
`balance == amount - paidAmount`, `paymentStatus == "Downpayment
Received"` and `status == "On Process"`. -/
theorem create_down_payment_order_spec
    (db : DB) (userId : Nat) (req : CreateOrderRequest)
    (hdup : findOrderByHash db req.transactionHash = none)
    (huser : db.users.contains userId = true)
    (hcustom : ∃ r ∈ req.items, ∃ it ∈ db.catalog,
      it.itemId = r.item ∧ it.is_customizable = true)
    (htype : req.paymentType = "down_payment") :
    ∃ o : Order,
      (createOrder db userId req).2 = CreateResult.created o.orderId ∧
      (createOrder db userId req).1.orders = db.orders ++ [o] ∧
      o.orderId = db.nextOrderId ∧
      o.downPayment = req.paidAmount ∧
      o.balance = req.amount - req.paidAmount ∧
      o.paymentStatus = "Downpayment Received" ∧
      o.status = "On Process" ∧
      o.amount = req.amount ∧
      o.totalWithShipping = req.totalWithShipping := by
  obtain ⟨r, hr, it, hit, hid, hcz⟩ := hcustom
  have hc : hasCustomizableItems db.catalog
      ((processLines db.nextLineId req.items).map (fun l => l.item)) = true := by
    rw [processLines_map_item]
    refine hasCustomizableItems_of_mem _ _ it hit ?_ hcz
    have : it.itemId ∈ req.items.map (fun x => x.item) := by
      rw [hid]
      exact List.mem_map_of_mem _ hr
    simpa using this
  have hd : (if req.transactionHash ≠ "" then findOrderByHash db req.transactionHash
      else none) = none := by
    split <;> simp [hdup]
  have ht : ¬ (req.paymentType = "full_payment") := by
    rw [htype]; intro h; exact absurd h (by decide)
  refine ⟨{ orderId := db.nextOrderId
            user := userId
            items := processLines db.nextLineId req.items
            amount := req.amount
            totalWithShipping := req.totalWithShipping
            downPayment := req.paidAmount
            balance := req.amount - req.paidAmount
            paymentStatus := "Downpayment Received"
            status := "On Process"
            transactionHash := req.transactionHash
            transactionId := none
            deliveryOption := req.deliveryOption
            shippingFee := req.shippingFee },
      ?_, ?_, rfl, rfl, rfl, rfl, rfl, rfl, rfl⟩ <;>
  · have huser' : userId ∈ db.users := by simpa using huser
    simp [createOrder, newOrderDoc, paymentFields, hd, huser', hc, ht]

/-- Witness for C2: scenario B of the spec — customized subtotal 10000
plus normal subtotal 500 paid as a down payment gives an order with
`downPayment = 3500` and `balance = 7000`. -/
theorem create_down_payment_order_spec_witness :
    ∃ o : Order,
      (createOrder scenarioBDB 1 scenarioBReq).2 = CreateResult.created o.orderId ∧
      o.downPayment = 3500 ∧
      o.balance = 7000 ∧
      o.paymentStatus = "Downpayment Received" ∧
      o.status = "On Process" := by
  obtain ⟨o, h1, _h2, _h3, h4, h5, h6, h7, _h8, _h9⟩ :=
    create_down_payment_order_spec scenarioBDB 1 scenarioBReq
      (by rfl)
      (by rfl)
      ⟨{ item := 1, quantity := 1, price := 10000 }, by simp [scenarioBReq],
        ⟨1, 10000, true, 0⟩, by simp [scenarioBDB], rfl, rfl⟩
      rfl
  refine ⟨o, h1, ?_, ?_, h6, h7⟩
  · rw [h4]
    norm_num [scenarioBReq, scenarioBEntries, getActualPaymentAmount]
  · rw [h5]
    norm_num [scenarioBReq, scenarioBEntries, getActualPaymentAmount]

/-- In every branch of the creation payment logic,
`downPayment + balance` equals the order `amount` (never the
shipping-inclusive total). -/
lemma paymentFields_sum (hc : Bool) (pt dopt : String) (amount paid : Rat) :
    (paymentFields hc pt dopt amount paid).1 +
      (paymentFields hc pt dopt amount paid).2.1 = amount := by
  simp only [paymentFields]
  split
  · split
    · simp
    · simp
  · simp

/-- Counterexample to C1: creating a fully-paid, non-customized order with
`amount = 2000`, `shippingFee = 1500` and `totalWithShipping = 3500`
leaves the stored order with `downPayment + balance = 2000 ≠ 3500 =
totalWithShipping`, so the invariant fails right after order creation. -/
theorem creation_breaks_shipping_invariant :
    ((createOrder shippingDB 1 shippingReq).1.orders.map
      (fun o => o.downPayment + o.balance)) = [2000] ∧
    ((createOrder shippingDB 1 shippingReq).1.orders.map
      (fun o => o.totalWithShipping)) = [3500] ∧
    (2000 : Rat) ≠ 3500 := by
  refine ⟨?_, ?_, by norm_num⟩ <;>
    norm_num [createOrder, newOrderDoc, shippingDB, shippingReq, findOrderByHash,
      hasCustomizableItems, processLines, paymentFields]

/-- C1 (amended): after order creation `downPayment + balance == amount`
(so the claimed invariant `downPayment + balance == totalWithShipping`
holds only when `totalWithShipping == amount`, i.e. zero shipping fee);
the webhook preserves every money field of every order; after a
successful complete-payment settlement the surviving orders satisfy
`downPayment + balance == totalWithShipping`. -/
theorem ledger_sum_invariant_amended :
    (∀ (db : DB) (userId : Nat) (req : CreateOrderRequest) (db' : DB) (id : Nat),
        createOrder db userId req = (db', CreateResult.created id) →
        ∃ o : Order, db'.orders = db.orders ++ [o] ∧
          o.downPayment + o.balance = o.amount ∧
          (o.totalWithShipping = o.amount →
            o.downPayment + o.balance = o.totalWithShipping)) ∧
    (∀ (db : DB) (ev sid : String) (o' : Order),
        o' ∈ (processWebhook db ev sid).orders →
        ∃ o ∈ db.orders,
          o'.downPayment = o.downPayment ∧ o'.balance = o.balance ∧
          o'.totalWithShipping = o.totalWithShipping ∧ o'.amount = o.amount ∧
          o'.paymentStatus = o.paymentStatus) ∧
    (∀ (db : DB) (orderId userId : Nat) (gw : GatewayOutcome) (db' : DB) (sid : String),
        completePayment db orderId userId gw = (db', CompleteResult.ok sid) →
        ∀ o' ∈ db'.orders,
          o' ∈ db.orders ∨ o'.downPayment + o'.balance = o'.totalWithShipping) := by
  refine ⟨?_, ?_, ?_⟩
  · intro db userId req db' id h
    simp only [createOrder] at h
    split at h
    · simp at h
    · split at h
      · simp at h
      · injection h with h1 h2
        subst h1
        refine ⟨_, rfl, ?_, ?_⟩
        · exact paymentFields_sum _ _ _ _ _
        · intro hts
          rw [hts]
          exact paymentFields_sum _ _ _ _ _
  · intro db ev sid o' h
    by_cases hev : ev = "checkout_session.completed"
    · simp only [processWebhook, hev, if_true, ite_true] at h
      rcases hfind : findOrderByTransactionId db sid with _ | order
      · rw [hfind] at h
        exact ⟨o', h, rfl, rfl, rfl, rfl, rfl⟩
      · rw [hfind] at h
        simp only [putOrder, List.mem_map] at h
        obtain ⟨x, hx, hfx⟩ := h
        by_cases hxo : x.orderId = order.orderId
        · have horder : order ∈ db.orders :=
            List.mem_of_find?_eq_some hfind
          refine ⟨order, horder, ?_⟩
          simp [← hfx, hxo]
        · refine ⟨x, hx, ?_⟩
          simp [← hfx, hxo]
    · simp only [processWebhook, hev, if_false, ite_false] at h
      exact ⟨o', h, rfl, rfl, rfl, rfl, rfl⟩
  · intro db orderId userId gw db' sid h o' ho'
    simp only [completePayment] at h
    split at h
    · simp at h
    · rename_i order heq
      split at h
      · simp at h
      · split at h
        · simp at h
        · split at h
          · simp at h
          · injection h with h1 h2
            rw [← h1] at ho'
            simp only [putOrder, List.mem_map] at ho'
            obtain ⟨x, hx, hfx⟩ := ho'
            by_cases hxo : x.orderId = order.orderId
            · right
              simp [← hfx, hxo]
            · left
              rw [← hfx]
              simpa [hxo] using hx

/-- Witness for the amended C1: the scenario-A creation keeps
`downPayment + balance = amount`; the webhook on `webhookDB` preserves the
money fields of the updated order; settling `settleOrder` restores
`downPayment + balance = totalWithShipping`. -/
theorem ledger_sum_invariant_amended_witness :
    (∃ o : Order,
      (createOrder shippingDB 1 shippingReq).1.orders = shippingDB.orders ++ [o] ∧
      o.downPayment + o.balance = o.amount) ∧
    (∃ o ∈ webhookDB.orders,
      ({ webhookOrder with status := "On Process" } : Order).downPayment = o.downPayment ∧
      ({ webhookOrder with status := "On Process" } : Order).balance = o.balance ∧
      ({ webhookOrder with status := "On Process" } : Order).totalWithShipping =
        o.totalWithShipping ∧
      ({ webhookOrder with status := "On Process" } : Order).amount = o.amount ∧
      ({ webhookOrder with status := "On Process" } : Order).paymentStatus =
        o.paymentStatus) ∧
    (({ settleOrder with
          transactionHash := "cs_9"
          paymentStatus := "Fully Paid"
          balance := 0
          downPayment := settleOrder.totalWithShipping } : Order) ∈ settleDB.orders ∨
      ({ settleOrder with
          transactionHash := "cs_9"
          paymentStatus := "Fully Paid"
          balance := 0
          downPayment := settleOrder.totalWithShipping } : Order).downPayment +
        ({ settleOrder with
            transactionHash := "cs_9"
            paymentStatus := "Fully Paid"
            balance := 0
            downPayment := settleOrder.totalWithShipping } : Order).balance =
        ({ settleOrder with
            transactionHash := "cs_9"
            paymentStatus := "Fully Paid"
            balance := 0
            downPayment := settleOrder.totalWithShipping } : Order).totalWithShipping) := by
  refine ⟨?_, ?_, ?_⟩
  · have h2c : (createOrder shippingDB 1 shippingReq).2 = CreateResult.created 1 := by
      norm_num [createOrder, newOrderDoc, shippingDB, shippingReq, findOrderByHash,
        hasCustomizableItems, processLines, paymentFields]
    obtain ⟨o, h1, h2, _⟩ :=
      ledger_sum_invariant_amended.1 shippingDB 1 shippingReq
        (createOrder shippingDB 1 shippingReq).1 1 (Prod.ext rfl h2c)
    exact ⟨o, h1, h2⟩
  · have hmem : ({ webhookOrder with status := "On Process" } : Order) ∈
        (processWebhook webhookDB "checkout_session.completed" "cs_1").orders := by
      simp [processWebhook, webhookDB, webhookOrder, findOrderByTransactionId, putOrder]
    exact ledger_sum_invariant_amended.2.1 webhookDB "checkout_session.completed" "cs_1"
      _ hmem
  · have h2c : (completePayment settleDB 1 1 (GatewayOutcome.session "cs_9")).2 =
        CompleteResult.ok "cs_9" := by
      norm_num [completePayment, settleDB, settleOrder, findOrder, jsRound]
    have hmem : ({ settleOrder with
          transactionHash := "cs_9"
          paymentStatus := "Fully Paid"
          balance := 0
          downPayment := settleOrder.totalWithShipping } : Order) ∈
        (completePayment settleDB 1 1 (GatewayOutcome.session "cs_9")).1.orders := by
      norm_num [completePayment, settleDB, settleOrder, findOrder, jsRound, putOrder]
    exact ledger_sum_invariant_amended.2.2 settleDB 1 1 (GatewayOutcome.session "cs_9")
      (completePayment settleDB 1 1 (GatewayOutcome.session "cs_9")).1 "cs_9"
      (Prod.ext rfl h2c) _ hmem

/-- A non-positive amount stays non-positive under JavaScript rounding to
centavos. -/
lemma jsRound_nonpos {x : Rat} (h : x ≤ 0) : jsRound x ≤ 0 := by
  unfold jsRound
  have h1 : ¬ ((1 : ℤ) ≤ Int.floor (x + 1/2)) := by
    rw [Int.le_floor]
    push_neg
    push_cast
    linarith
  omega

/-- `find?` after a keyed in-place update returns the updated document. -/
lemma find?_putList {l : List Order} {oid : Nat} {o o' : Order}
    (h : l.find? (fun x => x.orderId = oid) = some o) (hid : o'.orderId = o.orderId) :
    (l.map (fun x => if x.orderId = o.orderId then o' else x)).find?
      (fun x => x.orderId = oid) = some o' := by
  induction l with
  | nil => simp at h
  | cons y l ih =>
    by_cases hy : y.orderId = oid
    · rw [List.find?_cons_of_pos _ (by simpa using hy)] at h
      have hyo : y = o := Option.some.inj h
      subst hyo
      rw [List.map_cons, if_pos rfl]
      exact List.find?_cons_of_pos _ (by simp [hid, hy])
    · rw [List.find?_cons_of_neg _ (by simpa using hy)] at h
      have ho : o.orderId = oid := by simpa using List.find?_some h
      have hyne : ¬ (y.orderId = o.orderId) := by rw [ho]; exact hy
      rw [List.map_cons, if_neg hyne,
        List.find?_cons_of_neg _ (by simpa using hy)]
      exact ih h

/-- `findOrder` after `putOrder` with a document carrying the same id. -/
lemma findOrder_putOrder {db : DB} {oid : Nat} {o o' : Order}
    (h : findOrder db oid = some o) (hid : o'.orderId = o.orderId) :
    findOrder (putOrder db o') oid = some o' := by
  unfold findOrder putOrder at *
  simp only [hid]
  exact find?_putList h hid

/-- C3: for the complete-remaining-payment handler — when the caller does
not own the order or the balance is not strictly positive, the request
fails and the database is unchanged; when it succeeds, the order ends
with `balance = 0`, `downPayment = totalWithShipping`,
`paymentStatus = "Fully Paid"` and the gateway's fresh session id stored
as the new `transactionHash`. -/
theorem complete_payment_spec
    (db : DB) (orderId userId : Nat) (gw : GatewayOutcome) (order : Order)
    (hfound : findOrder db orderId = some order) :
    ((order.user ≠ userId ∨ order.balance ≤ 0) →
      (completePayment db orderId userId gw).1 = db ∧
      ∀ sid, (completePayment db orderId userId gw).2 ≠ CompleteResult.ok sid) ∧
    (∀ sid, (completePayment db orderId userId gw).2 = CompleteResult.ok sid →
      ∃ o' : Order,
        findOrder (completePayment db orderId userId gw).1 orderId = some o' ∧
        o'.balance = 0 ∧
        o'.downPayment = o'.totalWithShipping ∧
        o'.paymentStatus = "Fully Paid" ∧
        o'.transactionHash = sid) := by
  constructor
  · intro hfail
    simp only [completePayment, hfound]
    by_cases hne : order.user ≠ userId
    · rw [if_pos hne]
      exact ⟨rfl, fun sid => by simp⟩
    · rw [if_neg hne]
      have hbal : order.balance ≤ 0 := by
        rcases hfail with h | h
        · exact absurd h hne
        · exact h
      have hz : jsRound (order.balance * 100) ≤ 0 := jsRound_nonpos (by linarith)
      rw [if_pos hz]
      exact ⟨rfl, fun sid => by simp⟩
  · intro sid hok
    by_cases hne : order.user ≠ userId
    · exfalso
      revert hok
      simp [completePayment, hfound, hne]
    · by_cases hbal : jsRound (order.balance * 100) ≤ 0
      · exfalso
        revert hok
        simp [completePayment, hfound, hne, hbal]
      · cases gw with
        | failure =>
          exfalso
          revert hok
          simp [completePayment, hfound, hne, hbal]
        | session s =>
          have hs : s = sid := by
            simpa [completePayment, hfound, hne, hbal] using hok
          subst hs
          refine ⟨{ order with
                      transactionHash := s
                      paymentStatus := "Fully Paid"
                      balance := 0
                      downPayment := order.totalWithShipping },
            ?_, rfl, rfl, rfl, rfl⟩
          have hput := @findOrder_putOrder db orderId order
            { order with
                transactionHash := s
                paymentStatus := "Fully Paid"
                balance := 0
                downPayment := order.totalWithShipping }
            hfound rfl
          simpa [completePayment, hfound, hne, hbal] using hput

/-- Witness for C3: settling `settleOrder` (balance 7000) with a fresh
gateway session `"cs_9"` zeroes the balance, raises `downPayment` to the
total and stores the new hash. -/
theorem complete_payment_spec_witness :
    ∃ o' : Order,
      findOrder (completePayment settleDB 1 1 (GatewayOutcome.session "cs_9")).1 1 =
        some o' ∧
      o'.balance = 0 ∧
      o'.downPayment = o'.totalWithShipping ∧
      o'.paymentStatus = "Fully Paid" ∧
      o'.transactionHash = "cs_9" := by
  have hok : (completePayment settleDB 1 1 (GatewayOutcome.session "cs_9")).2 =
      CompleteResult.ok "cs_9" := by
    norm_num [completePayment, settleDB, settleOrder, findOrder, jsRound]
  exact (complete_payment_spec settleDB 1 1 (GatewayOutcome.session "cs_9") settleOrder
    (by rfl)).2 "cs_9" hok

/-- Counterexample to C4: merely creating the checkout session in the
complete-payment flow (no webhook has been processed, the customer has
not paid) already flips the order from `Downpayment Received` to
`Fully Paid` with `balance = 0`. -/
theorem complete_payment_mutates_before_webhook :
    (settleDB.orders.map (fun o => o.paymentStatus)) = ["Downpayment Received"] ∧
    ((completePayment settleDB 1 1 (GatewayOutcome.session "cs_2")).1.orders.map
      (fun o => o.paymentStatus)) = ["Fully Paid"] ∧
    ((completePayment settleDB 1 1 (GatewayOutcome.session "cs_2")).1.orders.map
      (fun o => o.balance)) = [0] := by
  refine ⟨by simp [settleDB, settleOrder], ?_, ?_⟩ <;>
    norm_num [completePayment, settleDB, settleOrder, findOrder, jsRound, putOrder]

/-- C4 (amended): a gateway call that fails (network/4xx) leaves the
database unchanged, but in the complete-payment flow a gateway call that
merely succeeds in creating the checkout session — before the customer
pays and before any webhook — already mutates the ledger: the order is
marked `Fully Paid` with `balance = 0` and
`downPayment = totalWithShipping`. -/
theorem gateway_mutation_amended :
    (∀ (db : DB) (orderId userId : Nat),
        (completePayment db orderId userId GatewayOutcome.failure).1 = db) ∧
    (∀ (db : DB) (orderId userId : Nat) (sid : String) (db' : DB) (s : String),
        completePayment db orderId userId (GatewayOutcome.session sid) =
          (db', CompleteResult.ok s) →
        ∃ order o' : Order,
          findOrder db orderId = some order ∧
          findOrder db' orderId = some o' ∧
          o'.paymentStatus = "Fully Paid" ∧
          o'.balance = 0 ∧
          o'.downPayment = order.totalWithShipping) := by
  constructor
  · intro db orderId userId
    rcases hfound : findOrder db orderId with _ | order
    · simp [completePayment, hfound]
    · simp only [completePayment, hfound]
      split
      · rfl
      · split
        · rfl
        · rfl
  · intro db orderId userId sid db' s h
    rcases hfound : findOrder db orderId with _ | order
    · exfalso
      simp [completePayment, hfound] at h
    · by_cases hne : order.user ≠ userId
      · exfalso
        simp [completePayment, hfound, hne] at h
      · by_cases hbal : jsRound (order.balance * 100) ≤ 0
        · exfalso
          simp [completePayment, hfound, hne, hbal] at h
        · have hred : completePayment db orderId userId (GatewayOutcome.session sid) =
              (putOrder db
                { order with
                    transactionHash := sid
                    paymentStatus := "Fully Paid"
                    balance := 0
                    downPayment := order.totalWithShipping },
                CompleteResult.ok sid) := by
            simp [completePayment, hfound, hne, hbal]
          rw [hred] at h
          injection h with h1 h2
          refine ⟨order,
            { order with
                transactionHash := sid
                paymentStatus := "Fully Paid"
                balance := 0
                downPayment := order.totalWithShipping },
            rfl, ?_, rfl, rfl, rfl⟩
          rw [← h1]
          exact findOrder_putOrder hfound rfl

/-- Witness for the amended C4: a failed gateway call on `settleDB`
changes nothing; a created session `"cs_2"` yields a `Fully Paid`,
zero-balance order although no webhook ran. -/
theorem gateway_mutation_amended_witness :
    (completePayment settleDB 1 1 GatewayOutcome.failure).1 = settleDB ∧
    (∃ order o' : Order,
      findOrder settleDB 1 = some order ∧
      findOrder (completePayment settleDB 1 1 (GatewayOutcome.session "cs_2")).1 1 =
        some o' ∧
      o'.paymentStatus = "Fully Paid" ∧
      o'.balance = 0 ∧
      o'.downPayment = order.totalWithShipping) := by
  have hok : (completePayment settleDB 1 1 (GatewayOutcome.session "cs_2")).2 =
      CompleteResult.ok "cs_2" := by
    norm_num [completePayment, settleDB, settleOrder, findOrder, jsRound]
  exact ⟨gateway_mutation_amended.1 settleDB 1 1,
    gateway_mutation_amended.2 settleDB 1 1 "cs_2"
      (completePayment settleDB 1 1 (GatewayOutcome.session "cs_2")).1 "cs_2"
      (Prod.ext rfl hok)⟩

/-- `find?` over an append whose first part has no match. -/
lemma find?_append_none {α : Type} {l₁ l₂ : List α} {p : α → Bool}
    (h : l₁.find? p = none) :
    (l₁ ++ l₂).find? p = l₂.find? p := by
  induction l₁ with
  | nil => rfl
  | cons y l ih =>
    by_cases hp : p y = true
    · rw [List.find?_cons_of_pos _ hp] at h
      exact absurd h (by simp)
    · rw [List.find?_cons_of_neg _ (by simpa using hp)] at h
      rw [List.cons_append, List.find?_cons_of_neg _ (by simpa using hp)]
      exact ih h

@[simp] lemma newOrderDoc_orderId (db : DB) (userId : Nat) (req : CreateOrderRequest) :
    (newOrderDoc db userId req).orderId = db.nextOrderId := rfl

@[simp] lemma newOrderDoc_transactionHash (db : DB) (userId : Nat)
    (req : CreateOrderRequest) :
    (newOrderDoc db userId req).transactionHash = req.transactionHash := rfl

/-- C6: with a non-empty, not-yet-used `transactionHash`, the first
creation call persists exactly one order with that hash and answers
`created id`; an identical second call leaves the database untouched and
answers `duplicate id` with the same id. -/
theorem create_order_idempotent
    (db : DB) (userId : Nat) (req : CreateOrderRequest)
    (hhash : req.transactionHash ≠ "")
    (hnone : findOrderByHash db req.transactionHash = none)
    (huser : db.users.contains userId = true) :
    createOrder db userId req =
      ({ db with
          orders := db.orders ++ [newOrderDoc db userId req]
          nextOrderId := db.nextOrderId + 1
          nextLineId := db.nextLineId + (newOrderDoc db userId req).items.length },
        CreateResult.created db.nextOrderId) ∧
    ((db.orders ++ [newOrderDoc db userId req]).filter
      (fun o => o.transactionHash = req.transactionHash)).length = 1 ∧
    createOrder
        { db with
            orders := db.orders ++ [newOrderDoc db userId req]
            nextOrderId := db.nextOrderId + 1
            nextLineId := db.nextLineId + (newOrderDoc db userId req).items.length }
        userId req =
      ({ db with
          orders := db.orders ++ [newOrderDoc db userId req]
          nextOrderId := db.nextOrderId + 1
          nextLineId := db.nextLineId + (newOrderDoc db userId req).items.length },
        CreateResult.duplicate db.nextOrderId) := by
  have hd : (if req.transactionHash ≠ "" then findOrderByHash db req.transactionHash
      else none) = none := by
    rw [if_pos hhash]
    exact hnone
  have huser' : userId ∈ db.users := by simpa using huser
  have hnil : db.orders.filter (fun o => o.transactionHash = req.transactionHash) = [] := by
    rw [List.filter_eq_nil_iff]
    intro o ho
    have := List.find?_eq_none.mp hnone o ho
    simpa using this
  refine ⟨?_, ?_, ?_⟩
  · simp [createOrder, hd, huser']
  · rw [List.filter_append, hnil]
    simp
  · have hfind2 : findOrderByHash
        { db with
            orders := db.orders ++ [newOrderDoc db userId req]
            nextOrderId := db.nextOrderId + 1
            nextLineId := db.nextLineId + (newOrderDoc db userId req).items.length }
        req.transactionHash = some (newOrderDoc db userId req) := by
      unfold findOrderByHash
      rw [show ({ db with
            orders := db.orders ++ [newOrderDoc db userId req]
            nextOrderId := db.nextOrderId + 1
            nextLineId := db.nextLineId + (newOrderDoc db userId req).items.length } : DB).orders
          = db.orders ++ [newOrderDoc db userId req] from rfl]
      rw [find?_append_none hnone]
      exact List.find?_cons_of_pos _ (by simp)
    simp [createOrder, if_pos hhash, hfind2]

/-- Witness for C6: submitting `shippingReq` (hash `"u1-2"`) twice against
`shippingDB` returns `created 1` then `duplicate 1` and leaves the
database of the first call unchanged. -/
theorem create_order_idempotent_witness :
    (createOrder shippingDB 1 shippingReq).2 = CreateResult.created 1 ∧
    (createOrder (createOrder shippingDB 1 shippingReq).1 1 shippingReq).2 =
      CreateResult.duplicate 1 ∧
    (createOrder (createOrder shippingDB 1 shippingReq).1 1 shippingReq).1 =
      (createOrder shippingDB 1 shippingReq).1 := by
  obtain ⟨h1, _h2, h3⟩ :=
    create_order_idempotent shippingDB 1 shippingReq (by decide) rfl rfl
  have h1fst : (createOrder shippingDB 1 shippingReq).1 =
      { shippingDB with
          orders := shippingDB.orders ++ [newOrderDoc shippingDB 1 shippingReq]
          nextOrderId := shippingDB.nextOrderId + 1
          nextLineId := shippingDB.nextLineId +
            (newOrderDoc shippingDB 1 shippingReq).items.length } := by
    rw [h1]
  refine ⟨?_, ?_, ?_⟩
  · rw [h1]
    rfl
  · rw [h1fst, h3]
    rfl
  · rw [h1fst, h3]

/-- C10: with an absent (empty) `transactionHash` the duplicate check is
skipped and every submission persists a fresh order — two successive
identical calls both answer `created` and grow the store by two
documents, whatever orders (including identical ones) already exist. -/
theorem empty_hash_skips_duplicate_check
    (db : DB) (userId : Nat) (req : CreateOrderRequest)
    (hhash : req.transactionHash = "")
    (huser : db.users.contains userId = true) :
    (createOrder db userId req).2 = CreateResult.created db.nextOrderId ∧
    (createOrder db userId req).1.orders.length = db.orders.length + 1 ∧
    (createOrder (createOrder db userId req).1 userId req).2 =
      CreateResult.created ((createOrder db userId req).1).nextOrderId ∧
    (createOrder (createOrder db userId req).1 userId req).1.orders.length =
      db.orders.length + 2 := by
  have huser' : userId ∈ db.users := by simpa using huser
  refine ⟨?_, ?_, ?_, ?_⟩ <;> simp [createOrder, hhash, huser']

/-- Witness for C10: against `emptyHashDB`, which already holds an
identical order with empty hash, two submissions of `emptyHashReq` create
two further documents (ids 5 then 6). -/
theorem empty_hash_skips_duplicate_check_witness :
    (createOrder emptyHashDB 1 emptyHashReq).2 = CreateResult.created 5 ∧
    (createOrder emptyHashDB 1 emptyHashReq).1.orders.length = 2 ∧
    (createOrder (createOrder emptyHashDB 1 emptyHashReq).1 1 emptyHashReq).1.orders.length
      = 3 := by
  obtain ⟨h1, h2, _h3, h4⟩ :=
    empty_hash_skips_duplicate_check emptyHashDB 1 emptyHashReq rfl rfl
  exact ⟨h1, h2, h4⟩

/-- C7: a refund request on an order with at least one customizable line
always fails and leaves the database unchanged — whatever the order's
status — and when the caller owns the order the failure is the
`InvalidState` (HTTP 400) kind; the order therefore never reaches
`Requesting for Refund` through this endpoint. -/
theorem refund_rejected_on_customized
    (db : DB) (orderId callerId : Nat) (order : Order)
    (hfound : findOrder db orderId = some order)
    (hcustom : orderHasCustomizedItems db.catalog order = true) :
    (requestRefund db orderId callerId).1 = db ∧
    (requestRefund db orderId callerId).2 ≠ RefundResult.ok ∧
    (order.user = callerId →
      (requestRefund db orderId callerId).2 = RefundResult.invalidState) := by
  by_cases hu : order.user ≠ callerId
  · refine ⟨by simp [requestRefund, hfound, hu],
      by simp [requestRefund, hfound, hu], ?_⟩
    intro h
    exact absurd h hu
  · by_cases hs : order.status ≠ "On Process"
    · exact ⟨by simp [requestRefund, hfound, hu, hs],
        by simp [requestRefund, hfound, hu, hs],
        fun _ => by simp [requestRefund, hfound, hu, hs]⟩
    · exact ⟨by simp [requestRefund, hfound, hu, hs, hcustom],
        by simp [requestRefund, hfound, hu, hs, hcustom],
        fun _ => by simp [requestRefund, hfound, hu, hs, hcustom]⟩

/-- Witness for C7: the owner's refund request on `settleOrder` (which
holds the customizable item 1 and is `On Process`) is rejected as
`invalidState` and mutates nothing. -/
theorem refund_rejected_on_customized_witness :
    (requestRefund settleDB 1 1).1 = settleDB ∧
    (requestRefund settleDB 1 1).2 = RefundResult.invalidState := by
  obtain ⟨h1, _h2, h3⟩ :=
    refund_rejected_on_customized settleDB 1 1 settleOrder rfl rfl
  exact ⟨h1, h3 rfl⟩

/-- C8 (code bug): the cancel endpoint runs `findByIdAndUpdate` before the
ownership check, so a non-owner's request both answers `unauthorized` AND
leaves the order cancelled; moreover the stored status is the lowercase
`"cancelled"`, which is not the schema enum's `"Cancelled"`. -/
theorem cancel_mutates_before_ownership_check :
    (cancelOrder settleDB 1 2).2 = CancelResult.unauthorized ∧
    ((cancelOrder settleDB 1 2).1.orders.map (fun o => o.status)) = ["cancelled"] ∧
    (cancelOrder settleDB 1 1).2 = CancelResult.ok ∧
    ((cancelOrder settleDB 1 1).1.orders.map (fun o => o.status)) = ["cancelled"] ∧
    "cancelled" ≠ "Cancelled" := by
  refine ⟨?_, ?_, ?_, ?_, by decide⟩ <;>
    simp [cancelOrder, settleDB, settleOrder, findOrder, putOrder]

/-- C9 (code bug): processing `checkout_session.completed` for
`webhookOrder` sets the order to `On Process` and increments the item's
sales by the purchased quantity, but the cart pull keys on the ORDER-line
subdocument ids (`order.items.map(item => item._id)`), which match no
cart line, so the owner's cart — still holding the purchased catalog
item 5 — is left unchanged. -/
theorem webhook_cart_pull_misses_purchased_lines :
    ((processWebhook webhookDB "checkout_session.completed" "cs_1").orders.map
      (fun o => o.status)) = ["On Process"] ∧
    ((processWebhook webhookDB "checkout_session.completed" "cs_1").catalog.map
      (fun it => it.sales)) = [2] ∧
    (processWebhook webhookDB "checkout_session.completed" "cs_1").carts =
      webhookDB.carts ∧
    webhookDB.carts =
      [{ user := 1, items := [{ lineId := 200, item := 5, quantity := 2 }] }] := by
  refine ⟨?_, ?_, ?_, rfl⟩ <;>
    simp [processWebhook, webhookDB, webhookOrder, findOrderByTransactionId,
      putOrder, updateFirst, incSales]

end Ledger
